import Mathlib
/-!
Verification of the yarnitor background worker (`yarnitor/background/worker.py`)
and the reader-side model (`yarnitor/model.py`).

We shallowly embed the worker's data flow: JSON values are an inductive
`JVal`, Python dicts are association lists, network effects are passed in
as explicit oracle arguments, and exceptions are `Except` values.
-/

/-! ## Definitions: the embedded worker and reader model -/

/-- JSON-ish value, the payload type of all dictionaries flowing through
the worker. -/
inductive JVal where
  | str (s : String)
  | num (n : Int)
  | bool (b : Bool)
  | null
  | arr (xs : List JVal)
  | obj (fields : List (String × JVal))

mutual

/-- Structural equality test on `JVal` (Python `==` on decoded JSON values). -/
def JVal.beq : JVal → JVal → Bool
  | .str a, .str b => a == b
  | .num a, .num b => a == b
  | .bool a, .bool b => a == b
  | .null, .null => true
  | .arr a, .arr b => JVal.beqList a b
  | .obj a, .obj b => JVal.beqObj a b
  | _, _ => false

/-- Elementwise equality of JSON arrays. -/
def JVal.beqList : List JVal → List JVal → Bool
  | [], [] => true
  | x :: xs, y :: ys => JVal.beq x y && JVal.beqList xs ys
  | _, _ => false

/-- Elementwise equality of JSON objects (as ordered key/value lists). -/
def JVal.beqObj : List (String × JVal) → List (String × JVal) → Bool
  | [], [] => true
  | (k, v) :: xs, (l, w) :: ys => k == l && JVal.beq v w && JVal.beqObj xs ys
  | _, _ => false

end

/-- Python `jsonvalue == "somestring"`: true iff the value is that string. -/
def JVal.eqStr : JVal → String → Bool
  | .str s, t => s == t
  | _, _ => false

/-- Association-list representation of a Python dict with string keys. -/
abbrev AssocList := List (String × JVal)

/-- Python `k in d` / `d.get(k)` as an optional lookup. -/
def alookup (d : AssocList) (k : String) : Option JVal :=
  match d with
  | [] => none
  | (k', v) :: rest => if k' = k then some v else alookup rest k

/-- Replace the value bound to `k` in place (Python `d[k] = v` on an existing
key keeps the key's position); appends at the end when `k` is absent. -/
def aset (d : AssocList) (k : String) (v : JVal) : AssocList :=
  match d with
  | [] => [(k, v)]
  | (k', v') :: rest => if k' = k then (k', v) :: rest else (k', v') :: aset rest k v

/-- The `MAX_HA_REDIRECTS` in worker.py: maximum number of redirects followed in
a single update attempt. -/
def MAX_HA_REDIRECTS : Nat := 5

/-- The `NON_RESPONSIVE_STATE` in worker.py: sentinel state used when the
application's tracking API cannot be queried. -/
def NON_RESPONSIVE_STATE : String := "NON_RESPONSIVE"

/-- One HTTP response from a resource-manager host as `get_url` sees it:
status code, the redirect target carried by a `Refresh` header (represented
here by the `scheme://netloc` string that the header-parsing lines of
`get_url` extract from the raw `"<n>; url=<new-url>"` value), and the
decoded JSON body. -/
structure RMResp where
  status : Nat
  refresh : Option String
  body : JVal

/-- The ways `YARNHandler.get_url` can raise. -/
inductive RMError where
  | httpError (status : Nat) -- `resp.raise_for_status()` once the pool is empty
  | keyErrorHost (h : String) -- `available_hosts.remove(h)` with `h` absent
  | nameErrorNewHost -- `for new_host in ...: break` over an empty list
  | tooManyRedirects -- `raise RuntimeError('Too many YARN redirects')`
  deriving DecidableEq

/-- The loop body of `YARNHandler.get_url` (worker.py lines 112-143).
`respond i h` is the response the `i`-th GET of this call receives from
host `h`. `fuel` is the number of remaining iterations of
`for i in range(MAX_HA_REDIRECTS)`; `attempts` counts GETs already issued;
`available` is `available_hosts` (a set, kept as a duplicate-free list);
`cur` is `self.base_url['host']`. Returns the outcome (decoded body plus
the sticky primary host on success) and the total number of GETs issued. -/
def getUrlGo (allHosts : List String) (respond : Nat → String → RMResp) :
    Nat → Nat → List String → String → Except RMError (JVal × String) × Nat
  | 0, attempts, _, _ => (.error .tooManyRedirects, attempts)
  | fuel + 1, attempts, available, cur =>
    let resp := respond attempts cur
    if 400 ≤ resp.status then
      if cur ∈ available then
        let available' := available.erase cur
        if available' = [] then
          (.error (.httpError resp.status), attempts + 1)
        else
          -- `for new_host in self.all_hosts: break` binds the FIRST element
          -- of all_hosts, not a member of the remaining working set.
          match allHosts with
          | [] => (.error .nameErrorNewHost, attempts + 1)
          | newHost :: _ => getUrlGo allHosts respond fuel (attempts + 1) available' newHost
      else
        (.error (.keyErrorHost cur), attempts + 1)
    else
      match resp.refresh with
      | none => (.ok (resp.body, cur), attempts + 1)
      | some newHost => getUrlGo allHosts respond fuel (attempts + 1) available newHost

/-- Python `str.split(',')` on the underlying character list: always yields
at least one (possibly empty) piece. -/
def splitCommaChars : List Char → List (List Char)
  | [] => [[]]
  | c :: rest =>
    let r := splitCommaChars rest
    if c = ',' then [] :: r
    else
      match r with
      | [] => [[c]]
      | w :: ws => (c :: w) :: ws

/-- Python `host.split(',')`. -/
def splitComma (s : String) : List String :=
  (splitCommaChars s.data).map fun cs => ⟨cs⟩

/-- The `YARNHandler.__init__`: split the comma-separated host list; the first
entry becomes the primary in `base_url`. -/
structure YARNHandler where
  allHosts : List String
  host : String

/-- Builds a `YARNHandler` from the comma-separated host configuration. -/
def YARNHandler.init (hostCfg : String) : YARNHandler :=
  let hs := splitComma hostCfg
  ⟨hs, hs.headD ""⟩

/-- The `YARNHandler.get_url`: run the failover/redirect loop with a fresh
working set `set(self.all_hosts)` starting at the sticky primary. -/
def YARNHandler.getUrl (h : YARNHandler) (respond : Nat → String → RMResp) :
    Except RMError (JVal × String) × Nat :=
  getUrlGo h.allHosts respond MAX_HA_REDIRECTS 0 h.allHosts.dedup h.host

/-- A resource manager that redirects on every request, each time naming a
fresh primary. -/
def alwaysRedirectRespond : Nat → String → RMResp :=
  fun i _ => ⟨200, some ("http://rm" ++ toString i), .null⟩

/-- Responses for the failover scenario of C1: the configured primary
`http://a` answers every GET with a 500, while the standby `http://b`
would answer 200 with a JSON body and no redirect. -/
def failoverRespond : Nat → String → RMResp := fun _ host =>
  if host = "http://a" then ⟨500, none, .null⟩
  else ⟨200, none, .obj [("ok", .bool true)]⟩

/-- The `Progress` utility class; `to_dict` serializes exactly these five
attributes in this order. -/
structure Progress where
  name : String
  completed : Int := 0
  failed : Int := 0
  running : Int := 0
  total : Int := 0
  deriving DecidableEq

/-- The task counters `SparkHandler._aggregate_tasks` reads from each job
object of the Spark monitoring API. -/
structure SparkJob where
  numCompletedTasks : Int
  numFailedTasks : Int
  numActiveTasks : Int
  numTasks : Int
  deriving DecidableEq

/-- The counters `MapredHandler` reads from each job object of the
MapReduce application-master API. -/
structure MapredJob where
  mapsCompleted : Int
  failedMapAttempts : Int
  mapsRunning : Int
  mapsTotal : Int
  reducesCompleted : Int
  failedReduceAttempts : Int
  reducesRunning : Int
  reducesTotal : Int
  deriving DecidableEq

/-- Exceptions arising while building one application's standardized
record. -/
inductive WorkerError where
  | keyError (k : String) -- Python KeyError on a dict subscript
  | typeError -- Python TypeError/AttributeError on a non-dict/non-str value
  | netError -- requests failure, timeout, or malformed tracking response
  deriving DecidableEq

/-- Python `d[k]`: the value, or `KeyError` when the key is absent. -/
def lookupE (d : AssocList) (k : String) : Except WorkerError JVal :=
  match alookup d k with
  | some v => .ok v
  | none => .error (.keyError k)

/-- The standardized per-application record built by
`BaseHandler.generate_standardized_info`: the twelve verbatim fields (in
the fixed order of `verbatim_fields`) plus the `progress` list. The dict
always has exactly these thirteen keys, so a structure captures it. -/
structure StdInfo where
  id : JVal
  name : JVal
  user : JVal
  applicationType : JVal
  queue : JVal
  startedTime : JVal
  allocatedMB : JVal
  allocatedVCores : JVal
  trackingUrl : JVal
  state : JVal
  memorySeconds : JVal
  vcoreSeconds : JVal
  progress : List Progress

/-- The `BaseHandler.generate_standardized_info`: copy the twelve verbatim
fields out of the YARN application info — the dict comprehension raises
`KeyError` at the first missing field — and attach an empty `progress`
list. -/
def baseGenerate (app : AssocList) : Except WorkerError StdInfo :=
  match alookup app "id" with
  | none => .error (.keyError "id")
  | some id =>
  match alookup app "name" with
  | none => .error (.keyError "name")
  | some name =>
  match alookup app "user" with
  | none => .error (.keyError "user")
  | some user =>
  match alookup app "applicationType" with
  | none => .error (.keyError "applicationType")
  | some applicationType =>
  match alookup app "queue" with
  | none => .error (.keyError "queue")
  | some queue =>
  match alookup app "startedTime" with
  | none => .error (.keyError "startedTime")
  | some startedTime =>
  match alookup app "allocatedMB" with
  | none => .error (.keyError "allocatedMB")
  | some allocatedMB =>
  match alookup app "allocatedVCores" with
  | none => .error (.keyError "allocatedVCores")
  | some allocatedVCores =>
  match alookup app "trackingUrl" with
  | none => .error (.keyError "trackingUrl")
  | some trackingUrl =>
  match alookup app "state" with
  | none => .error (.keyError "state")
  | some state =>
  match alookup app "memorySeconds" with
  | none => .error (.keyError "memorySeconds")
  | some memorySeconds =>
  match alookup app "vcoreSeconds" with
  | none => .error (.keyError "vcoreSeconds")
  | some vcoreSeconds =>
  .ok { id, name, user, applicationType, queue, startedTime, allocatedMB,
        allocatedVCores, trackingUrl, state, memorySeconds, vcoreSeconds,
        progress := [] }

/-- The `SparkHandler._aggregate_tasks`: sum the four task counters over the
job list into one `Progress` named `name`. -/
def aggregateTasks (name : String) (tasks : List SparkJob) : Progress :=
  tasks.foldl
    (fun p j =>
      { p with
        completed := p.completed + j.numCompletedTasks
        failed := p.failed + j.numFailedTasks
        running := p.running + j.numActiveTasks
        total := p.total + j.numTasks })
    { name := name }

/-- The `MapredHandler._aggregate_maps`. -/
def aggregateMaps (tasks : List MapredJob) : Progress :=
  tasks.foldl
    (fun p j =>
      { p with
        completed := p.completed + j.mapsCompleted
        failed := p.failed + j.failedMapAttempts
        running := p.running + j.mapsRunning
        total := p.total + j.mapsTotal })
    { name := "Maps" }

/-- The `MapredHandler._aggregate_reduces`. -/
def aggregateReduces (tasks : List MapredJob) : Progress :=
  tasks.foldl
    (fun p j =>
      { p with
        completed := p.completed + j.reducesCompleted
        failed := p.failed + j.failedReduceAttempts
        running := p.running + j.reducesRunning
        total := p.total + j.reducesTotal })
    { name := "Reduces" }

/-- Outcomes of the tracking-endpoint GETs the handlers issue, keyed by
the application id the handler was constructed with. `sparkJobs aid st`
models `SparkHandler.get_jobs(st)`; `mapredJobs aid` models the job list
`MapredHandler.get_jobs().get("jobs", {}).get("job", [])`. An `.error`
is any requests failure, timeout, or malformed response body. -/
structure TrackingNet where
  sparkJobs : JVal → Option String → Except WorkerError (List SparkJob)
  mapredJobs : JVal → Except WorkerError (List MapredJob)

/-- The three handler classes the worker registers (`BaseHandler` being
the fallback for unregistered types). -/
inductive HandlerClass where
  | base
  | spark
  | mapred
  deriving DecidableEq

/-- An instantiated handler: class plus the `(tracking_url, application_id)`
constructor arguments. -/
structure AppHandler where
  cls : HandlerClass
  trackingUrl : String
  applicationId : JVal

/-- Python `s.rstrip('/')`. -/
def rstripSlash (s : String) : String :=
  ⟨(s.data.reverse.dropWhile (· = '/')).reverse⟩

/-- The `BaseHandler.__init__` (shared by every handler class): store
`tracking_url.rstrip('/')` and the application id. A non-string
`trackingUrl` raises (`AttributeError` on `.rstrip`). -/
def mkAppHandler (cls : HandlerClass) (trackingUrl : JVal) (appId : JVal) :
    Except WorkerError AppHandler :=
  match trackingUrl with
  | .str s => .ok ⟨cls, rstripSlash s, appId⟩
  | _ => .error .typeError

/-- Handler registry: `YARNPoller.application_handlers`, a dict from
applicationType strings to handler classes. -/
abbrev HandlerRegistry := List (String × HandlerClass)

/-- The `self.application_handlers.get(app_type, BaseHandler)`; a non-string
type never matches a registered string key, so it falls back to the base
handler. -/
def registryGet (reg : HandlerRegistry) (appType : JVal) : HandlerClass :=
  match appType with
  | .str s => (reg.lookup s).getD .base
  | _ => .base

/-- The `YARNPoller._make_application_handler`. -/
def makeApplicationHandler (reg : HandlerRegistry) (app : AssocList) :
    Except WorkerError AppHandler :=
  match lookupE app "applicationType" with
  | .error e => .error e
  | .ok appType =>
  match lookupE app "trackingUrl" with
  | .error e => .error e
  | .ok turl =>
  match lookupE app "id" with
  | .error e => .error e
  | .ok aid => mkAppHandler (registryGet reg appType) turl aid

/-- The `SparkHandler.generate_standardized_info`: base record, then a
"Running Tasks" progress from the running jobs (forcing the state to
RUNNING/IDLE), then a "Total" progress over all jobs. -/
def sparkGenerate (net : TrackingNet) (h : AppHandler) (app : AssocList) :
    Except WorkerError StdInfo :=
  match baseGenerate app with
  | .error e => .error e
  | .ok r =>
  match net.sparkJobs h.applicationId (some "running") with
  | .error e => .error e
  | .ok jobs =>
  let r :=
    if jobs.isEmpty then
      { r with
        state := .str "IDLE"
        progress := r.progress ++ [{ name := "Running Tasks" }] }
    else
      { r with
        progress := r.progress ++ [aggregateTasks "Running Tasks" jobs]
        state := .str "RUNNING" }
  match net.sparkJobs h.applicationId none with
  | .error e => .error e
  | .ok allJobs =>
    .ok { r with progress := r.progress ++ [aggregateTasks "Total" allJobs] }

/-- The `MapredHandler.generate_standardized_info`: base record; when the job
list is non-empty, the progress list is replaced by the Maps and Reduces
aggregates. -/
def mapredGenerate (net : TrackingNet) (h : AppHandler) (app : AssocList) :
    Except WorkerError StdInfo :=
  match baseGenerate app with
  | .error e => .error e
  | .ok r =>
  match net.mapredJobs h.applicationId with
  | .error e => .error e
  | .ok jobs =>
  if jobs.isEmpty then
    .ok r
  else
    .ok { r with progress := [aggregateMaps jobs, aggregateReduces jobs] }

/-- Dynamic dispatch of `generate_standardized_info` on the handler
class. -/
def generateStandardizedInfo (net : TrackingNet) (h : AppHandler) (app : AssocList) :
    Except WorkerError StdInfo :=
  match h.cls with
  | .base => baseGenerate app
  | .spark => sparkGenerate net h app
  | .mapred => mapredGenerate net h app

/-- The `verbatim_fields` list of `BaseHandler.generate_standardized_info`. -/
def verbatimFields : List String :=
  ["id", "name", "user", "applicationType", "queue", "startedTime",
   "allocatedMB", "allocatedVCores", "trackingUrl", "state",
   "memorySeconds", "vcoreSeconds"]

/-- The attempt guarded by `try` in `run_task`: build the registered
handler and produce its standardized info. -/
def tryGenerate (reg : HandlerRegistry) (net : TrackingNet) (app : AssocList) :
    Except WorkerError StdInfo :=
  match makeApplicationHandler reg app with
  | .error e => .error e
  | .ok ah => generateStandardizedInfo net ah app

/-- The fallback path of `run_task` (executed after the `try` block has
absorbed an exception): `BaseHandler(app['trackingUrl'], app['id'])`,
`generate_standardized_info(app)`, and the state forced to
`NON_RESPONSIVE`. These lines sit outside the `try` block, so their own
exceptions escape. -/
def fallbackTask (app : AssocList) : Except WorkerError StdInfo :=
  match lookupE app "trackingUrl" with
  | .error e => .error e
  | .ok turl =>
  match lookupE app "id" with
  | .error e => .error e
  | .ok aid =>
  match mkAppHandler .base turl aid with
  | .error e => .error e
  | .ok _ =>
  match baseGenerate app with
  | .error e => .error e
  | .ok info => .ok { info with state := .str NON_RESPONSIVE_STATE }

/-- The `run_task` closure of `_generate_listing`: any exception from the
handler attempt is absorbed (`except Exception` logs it), leaving
`std_info` as `None`, after which the fallback path runs. -/
def runTask (reg : HandlerRegistry) (net : TrackingNet) (app : AssocList) :
    Except WorkerError StdInfo :=
  match tryGenerate reg net app with
  | .ok info => .ok info
  | .error _ => fallbackTask app

/-- The `'apps' not in cluster_apps or cluster_apps['apps'] is None` guard
followed by `cluster_apps['apps']['app']` in `_generate_listing`:
`none` is the early `return {}` path; a present non-null `apps` must be
an object carrying an `app` array of application objects, anything else
raising when subscripted or iterated. -/
def extractApps (resp : AssocList) : Except WorkerError (Option (List AssocList)) :=
  match alookup resp "apps" with
  | none => .ok none
  | some .null => .ok none
  | some (.obj appsObj) =>
    match alookup appsObj "app" with
    | none => .error (.keyError "app")
    | some (.arr l) => do
      let apps ← l.mapM fun v =>
        match v with
        | .obj fields => Except.ok fields
        | _ => Except.error WorkerError.typeError
      .ok (some apps)
    | some _ => .error .typeError
  | some _ => .error .typeError

/-- The `info['state'] == NON_RESPONSIVE_STATE`, the predicate counted before
the mass-failure downgrade. -/
def isNonResponsive (info : StdInfo) : Bool :=
  info.state.eqStr NON_RESPONSIVE_STATE

/-- Python dict insertion `d[k] = v`: replaces in place when an equal key
exists, appends otherwise. -/
def upsert (d : List (JVal × StdInfo)) (k : JVal) (v : StdInfo) :
    List (JVal × StdInfo) :=
  match d with
  | [] => [(k, v)]
  | (k', v') :: rest =>
    if JVal.beq k' k then (k', v) :: rest else (k', v') :: upsert rest k v

/-- The `result = {info["id"]: info for info in results}`. -/
def keyById (results : List StdInfo) : List (JVal × StdInfo) :=
  results.foldl (fun d info => upsert d info.id info) []

/-- The `YARNPoller._generate_listing`, applied to the decoded response of
`cluster_applications("RUNNING")` and the tracking-endpoint oracle:
run one task per application, materialize all results (any escaped
exception aborts the listing), count the `NON_RESPONSIVE` results,
downgrade every state to `UNKNOWN` when all are non-responsive, and key
the results by application id. -/
def generateListing (reg : HandlerRegistry) (net : TrackingNet) (resp : AssocList) :
    Except WorkerError (List (JVal × StdInfo)) :=
  match extractApps resp with
  | .error e => .error e
  | .ok none => .ok []
  | .ok (some apps) =>
  match apps.mapM (runTask reg net) with
  | .error e => .error e
  | .ok results =>
  let numUnknown := results.countP isNonResponsive
  let results :=
    if numUnknown = results.length then
      results.map fun info => { info with state := .str "UNKNOWN" }
    else
      results
  .ok (keyById results)

/-- The registry `main()` installs: SPARK, MAPREDUCE and MAPRED. -/
def workerRegistry : HandlerRegistry :=
  [("SPARK", .spark), ("MAPREDUCE", .mapred), ("MAPRED", .mapred)]

/-- A tracking network on which every detail fetch fails. -/
def downNet : TrackingNet where
  sparkJobs := fun _ _ => .error .netError
  mapredJobs := fun _ => .error .netError

/-- First application record for the C5 witness. -/
def listApp1 : AssocList :=
  [("id", .str "a1"), ("name", .str "x"), ("user", .str "u"),
   ("applicationType", .str "FOO"), ("queue", .str "q"),
   ("startedTime", .num 1), ("allocatedMB", .num 1),
   ("allocatedVCores", .num 1), ("trackingUrl", .str "http://x"),
   ("state", .str "RUNNING"), ("memorySeconds", .num 1),
   ("vcoreSeconds", .num 1)]

/-- Second application record for the C5 witness. -/
def listApp2 : AssocList :=
  [("id", .str "a2"), ("name", .str "y"), ("user", .str "v"),
   ("applicationType", .str "BAR"), ("queue", .str "q"),
   ("startedTime", .num 2), ("allocatedMB", .num 2),
   ("allocatedVCores", .num 2), ("trackingUrl", .str "http://y"),
   ("state", .str "RUNNING"), ("memorySeconds", .num 2),
   ("vcoreSeconds", .num 2)]

/-- Resource-manager response listing the two C5 witness applications. -/
def listResp : AssocList :=
  [("apps", .obj [("app", .arr [.obj listApp1, .obj listApp2])])]

/-- Standardized record of the first C5 witness application. -/
def listInfo1 : StdInfo :=
  ⟨.str "a1", .str "x", .str "u", .str "FOO", .str "q", .num 1, .num 1,
   .num 1, .str "http://x", .str "RUNNING", .num 1, .num 1, []⟩

/-- Standardized record of the second C5 witness application. -/
def listInfo2 : StdInfo :=
  ⟨.str "a2", .str "y", .str "v", .str "BAR", .str "q", .num 2, .num 2,
   .num 2, .str "http://y", .str "RUNNING", .num 2, .num 2, []⟩

/-- Spark application whose tracking fetches fail (used for C3). -/
def massApp1 : AssocList :=
  [("id", .str "s1"), ("name", .str "sleepy"), ("user", .str "u"),
   ("applicationType", .str "SPARK"), ("queue", .str "q"),
   ("startedTime", .num 1), ("allocatedMB", .num 1),
   ("allocatedVCores", .num 1), ("trackingUrl", .str "http://s"),
   ("state", .str "RUNNING"), ("memorySeconds", .num 1),
   ("vcoreSeconds", .num 1)]

/-- Base-handled application whose verbatim resource-manager state happens
to equal the `NON_RESPONSIVE` sentinel string (used for C3). -/
def massApp2 : AssocList :=
  [("id", .str "b2"), ("name", .str "odd"), ("user", .str "u"),
   ("applicationType", .str "OTHER"), ("queue", .str "q"),
   ("startedTime", .num 2), ("allocatedMB", .num 2),
   ("allocatedVCores", .num 2), ("trackingUrl", .str "http://b"),
   ("state", .str "NON_RESPONSIVE"), ("memorySeconds", .num 2),
   ("vcoreSeconds", .num 2)]

/-- Resource-manager response listing the two C3 applications. -/
def massResp : AssocList :=
  [("apps", .obj [("app", .arr [.obj massApp1, .obj massApp2])])]

/-- The record the successful handler attempt produces for `massApp2`. -/
def massInfo2 : StdInfo :=
  ⟨.str "b2", .str "odd", .str "u", .str "OTHER", .str "q", .num 2, .num 2,
   .num 2, .str "http://b", .str "NON_RESPONSIVE", .num 2, .num 2, []⟩

/-- Final listing record for `massApp1`. -/
def massOut1 : StdInfo :=
  ⟨.str "s1", .str "sleepy", .str "u", .str "SPARK", .str "q", .num 1,
   .num 1, .num 1, .str "http://s", .str "UNKNOWN", .num 1, .num 1, []⟩

/-- Final listing record for `massApp2`. -/
def massOut2 : StdInfo :=
  ⟨.str "b2", .str "odd", .str "u", .str "OTHER", .str "q", .num 2, .num 2,
   .num 2, .str "http://b", .str "UNKNOWN", .num 2, .num 2, []⟩

/-- Base-handled application with an ordinary verbatim state, used in the
C3 witness as the successfully fetched partner. -/
def okApp : AssocList :=
  [("id", .str "ok1"), ("name", .str "fine"), ("user", .str "u"),
   ("applicationType", .str "PLAIN"), ("queue", .str "q"),
   ("startedTime", .num 3), ("allocatedMB", .num 3),
   ("allocatedVCores", .num 3), ("trackingUrl", .str "http://ok"),
   ("state", .str "RUNNING"), ("memorySeconds", .num 3),
   ("vcoreSeconds", .num 3)]

/-- Standardized record of `okApp`. -/
def okInfo : StdInfo :=
  ⟨.str "ok1", .str "fine", .str "u", .str "PLAIN", .str "q", .num 3,
   .num 3, .num 3, .str "http://ok", .str "RUNNING", .num 3, .num 3, []⟩

/-- The fallback record `run_task` produces for `massApp1` when its
tracking fetch fails. -/
def massFall1 : StdInfo :=
  ⟨.str "s1", .str "sleepy", .str "u", .str "SPARK", .str "q", .num 1,
   .num 1, .num 1, .str "http://s", .str "NON_RESPONSIVE", .num 1, .num 1,
   []⟩

/-- Resource-manager response for the C3 witness. -/
def mixedResp : AssocList :=
  [("apps", .obj [("app", .arr [.obj massApp1, .obj okApp])])]

/-- Application record missing the `user` verbatim field. -/
def gapApp : AssocList :=
  [("id", .str "g1"), ("name", .str "gap"),
   ("applicationType", .str "PLAIN"), ("queue", .str "q"),
   ("startedTime", .num 4), ("allocatedMB", .num 4),
   ("allocatedVCores", .num 4), ("trackingUrl", .str "http://g"),
   ("state", .str "RUNNING"), ("memorySeconds", .num 4),
   ("vcoreSeconds", .num 4)]

/-- Resource-manager response carrying the incomplete record. -/
def gapResp : AssocList := [("apps", .obj [("app", .arr [.obj gapApp])])]

/-- A concrete application record carrying all twelve verbatim fields plus
the resource manager's own coarse `progress` percentage of 42. -/
def pctApp : AssocList :=
  [("id", .str "application_1"), ("name", .str "wordcount"),
   ("user", .str "alice"), ("applicationType", .str "FANCY"),
   ("queue", .str "default"), ("startedTime", .num 1000),
   ("allocatedMB", .num 2048), ("allocatedVCores", .num 4),
   ("trackingUrl", .str "http://tracker:8088"), ("state", .str "RUNNING"),
   ("memorySeconds", .num 99), ("vcoreSeconds", .num 7),
   ("progress", .num 42)]

/-- The first C6 job (`running`). -/
def sparkJob1 : SparkJob := ⟨3, 0, 1, 4⟩

/-- The second C6 job (not running). -/
def sparkJob2 : SparkJob := ⟨2, 1, 0, 3⟩

/-- Tracking oracle for C6: the `status=running` fetch yields only the
first job, the unfiltered fetch yields both. -/
def sparkNet : TrackingNet where
  sparkJobs := fun _ status =>
    match status with
    | some _ => .ok [sparkJob1]
    | none => .ok [sparkJob1, sparkJob2]
  mapredJobs := fun _ => .ok []

/-- A Spark handler instance for the C6 application. -/
def sparkApp : AssocList :=
  [("id", .str "application_2"), ("name", .str "etl"),
   ("user", .str "bob"), ("applicationType", .str "SPARK"),
   ("queue", .str "default"), ("startedTime", .num 2000),
   ("allocatedMB", .num 4096), ("allocatedVCores", .num 8),
   ("trackingUrl", .str "http://tracker:4040"), ("state", .str "RUNNING"),
   ("memorySeconds", .num 11), ("vcoreSeconds", .num 3)]

/-- A naive `datetime.datetime` value, as returned by
`datetime.datetime.utcnow()`. -/
structure PyDateTime where
  year : Nat
  month : Nat
  day : Nat
  hour : Nat
  minute : Nat
  second : Nat
  microsecond : Nat
  deriving DecidableEq

/-- The field invariants the `datetime` class maintains (`MINYEAR = 1`,
`MAXYEAR = 9999`; we do not need calendar-exact day ranges). -/
def PyDateTime.Valid (d : PyDateTime) : Prop :=
  1 ≤ d.year ∧ d.year ≤ 9999 ∧ 1 ≤ d.month ∧ d.month ≤ 12
    ∧ 1 ≤ d.day ∧ d.day ≤ 31 ∧ d.hour < 24 ∧ d.minute < 60
    ∧ d.second < 60 ∧ d.microsecond < 1000000

instance (d : PyDateTime) : Decidable d.Valid := by
  unfold PyDateTime.Valid
  infer_instance

/-- Chronological denotation of a datetime: its offset on an idealized
timeline, strictly monotone in the lexicographic field order. -/
def PyDateTime.key (d : PyDateTime) : Nat :=
  ((((((d.year * 13 + d.month) * 32 + d.day) * 24 + d.hour) * 60 + d.minute)
      * 60 + d.second) * 1000000) + d.microsecond

/-- Decimal digit character. -/
def digitChar (n : Nat) : Char := Char.ofNat (48 + n)

/-- Digit value of a character, `none` on a non-digit. -/
def charDigit (c : Char) : Option Nat :=
  if 48 ≤ c.toNat ∧ c.toNat ≤ 57 then some (c.toNat - 48) else none

/-- Two-digit zero-padded decimal rendering. -/
def pad2 (n : Nat) : List Char := [digitChar (n / 10), digitChar (n % 10)]

/-- Four-digit zero-padded decimal rendering. -/
def pad4 (n : Nat) : List Char :=
  [digitChar (n / 1000), digitChar (n / 100 % 10), digitChar (n / 10 % 10),
   digitChar (n % 10)]

/-- Six-digit zero-padded decimal rendering. -/
def pad6 (n : Nat) : List Char :=
  [digitChar (n / 100000), digitChar (n / 10000 % 10),
   digitChar (n / 1000 % 10), digitChar (n / 100 % 10),
   digitChar (n / 10 % 10), digitChar (n % 10)]

/-- The `datetime.isoformat()`: `YYYY-MM-DDTHH:MM:SS`, with `.ffffff` appended
exactly when the microsecond field is non-zero. -/
def isoformatChars (d : PyDateTime) : List Char :=
  pad4 d.year ++ '-' :: (pad2 d.month ++ '-' :: (pad2 d.day
    ++ 'T' :: (pad2 d.hour ++ ':' :: (pad2 d.minute ++ ':' :: (pad2 d.second
    ++ (if d.microsecond = 0 then [] else '.' :: pad6 d.microsecond))))))

/-- Parse exactly two decimal digits. -/
def parse2 : List Char → Option (Nat × List Char)
  | a :: b :: rest =>
    match charDigit a, charDigit b with
    | some x, some y => some (x * 10 + y, rest)
    | _, _ => none
  | _ => none

/-- Parse exactly four decimal digits. -/
def parse4 : List Char → Option (Nat × List Char)
  | a :: b :: c :: d :: rest =>
    match charDigit a, charDigit b, charDigit c, charDigit d with
    | some x, some y, some z, some w =>
      some (((x * 10 + y) * 10 + z) * 10 + w, rest)
    | _, _, _, _ => none
  | _ => none

/-- Parse exactly six decimal digits. -/
def parse6 : List Char → Option (Nat × List Char)
  | a :: b :: c :: d :: e :: f :: rest =>
    match charDigit a, charDigit b, charDigit c, charDigit d,
        charDigit e, charDigit f with
    | some u1, some u2, some u3, some u4, some u5, some u6 =>
      some (((((u1 * 10 + u2) * 10 + u3) * 10 + u4) * 10 + u5) * 10 + u6,
            rest)
    | _, _, _, _, _, _ => none
  | _ => none

/-- Expect a literal character. -/
def expectChar (c : Char) : List Char → Option (List Char)
  | x :: rest => if x = c then some rest else none
  | [] => none

/-- Parser for the exact shape the worker publishes,
`YYYY-MM-DDTHH:MM:SS[.ffffff]Z`, returning the denoted datetime. A string
this parser accepts is a valid ISO-8601 datetime with an explicit UTC
designator. -/
def parseIsoZ (l : List Char) : Option PyDateTime :=
  match parse4 l with
  | none => none
  | some (y, r0) =>
  match expectChar '-' r0 with
  | none => none
  | some r1 =>
  match parse2 r1 with
  | none => none
  | some (mo, r2) =>
  match expectChar '-' r2 with
  | none => none
  | some r3 =>
  match parse2 r3 with
  | none => none
  | some (da, r4) =>
  match expectChar 'T' r4 with
  | none => none
  | some r5 =>
  match parse2 r5 with
  | none => none
  | some (hh, r6) =>
  match expectChar ':' r6 with
  | none => none
  | some r7 =>
  match parse2 r7 with
  | none => none
  | some (mi, r8) =>
  match expectChar ':' r8 with
  | none => none
  | some r9 =>
  match parse2 r9 with
  | none => none
  | some (ss, r10) =>
  match r10 with
  | ['Z'] => some ⟨y, mo, da, hh, mi, ss, 0⟩
  | '.' :: r11 =>
    match parse6 r11 with
    | none => none
    | some (uu, r12) =>
      match r12 with
      | ['Z'] => some ⟨y, mo, da, hh, mi, ss, uu⟩
      | _ => none
  | _ => none

/-- The `Progress.to_dict()` as it lands in the snapshot JSON. -/
def Progress.toJson (p : Progress) : JVal :=
  .obj [("name", .str p.name), ("completed", .num p.completed),
        ("failed", .num p.failed), ("running", .num p.running),
        ("total", .num p.total)]

/-- A standardized record as `json.dumps` serializes it: the twelve
verbatim keys in `verbatim_fields` order followed by `progress`. -/
def StdInfo.toJson (info : StdInfo) : JVal :=
  .obj [("id", info.id), ("name", info.name), ("user", info.user),
        ("applicationType", info.applicationType), ("queue", info.queue),
        ("startedTime", info.startedTime),
        ("allocatedMB", info.allocatedMB),
        ("allocatedVCores", info.allocatedVCores),
        ("trackingUrl", info.trackingUrl), ("state", info.state),
        ("memorySeconds", info.memorySeconds),
        ("vcoreSeconds", info.vcoreSeconds),
        ("progress", .arr (info.progress.map Progress.toJson))]

/-- JSON object key for a Python dict key: strings verbatim, scalar
non-string keys coerced the way `json.dumps` coerces them (container
keys are unhashable and can never have been stored in the dict). -/
def jsonKey : JVal → String
  | .str s => s
  | .num n => toString n
  | .bool true => "true"
  | .bool false => "false"
  | .null => "null"
  | .arr _ => ""
  | .obj _ => ""

/-- The id-keyed listing dict as JSON. -/
def listingToJson (l : List (JVal × StdInfo)) : JVal :=
  .obj (l.map fun kv => (jsonKey kv.1, kv.2.toJson))

/-- The `YARNPoller.state`: `__init__` seeds `current` and `cluster-metrics`;
the `refresh-datetime` key is absent until a cycle stamps it. -/
structure PollerState where
  current : List (JVal × StdInfo)
  clusterMetrics : JVal
  refreshDatetime : Option (List Char)

/-- The state `YARNPoller.__init__` builds. -/
def PollerState.init : PollerState := ⟨[], .obj [], none⟩

/-- The `json.dumps(self.state)` as the JSON value it denotes (the reader's
`json.loads` inverts `dumps`): the dict's keys in insertion order. -/
def PollerState.toJson (st : PollerState) : JVal :=
  .obj ([("current", listingToJson st.current),
         ("cluster-metrics", st.clusterMetrics)]
    ++ match st.refreshDatetime with
       | some s => [("refresh-datetime", .str ⟨s⟩)]
       | none => [])

/-- One `run_update` cycle (worker.py lines 531-544). `listing` is the
outcome of `self._generate_listing()` — a resource-manager error, a
per-application exception escaping a task, or the thread-pool timeout
make it raise; `metrics` is the outcome of `cluster_metrics()`; `now` is
what `datetime.datetime.utcnow()` returned for this cycle. Returns the
poller state, the store content under the fixed status key, and the
cycle outcome. `redis_client.set` is invoked once, after the listing,
metrics and timestamp stages, with `json.dumps` evaluated before the
call; an exception at any earlier stage leaves the store argument
untouched. -/
def runUpdate (listing : Except WorkerError (List (JVal × StdInfo)))
    (metrics : Except WorkerError JVal) (now : PyDateTime)
    (st : PollerState) (store : Option JVal) :
    PollerState × Option JVal × Except WorkerError Unit :=
  match listing with
  | .error e => (st, store, .error e)
  | .ok cur =>
  let st1 := { st with current := cur }
  match metrics with
  | .error e => (st1, store, .error e)
  | .ok m =>
  let st2 := { st1 with clusterMetrics := m }
  let st3 := { st2 with refreshDatetime := some (isoformatChars now ++ ['Z']) }
  (st3, some st3.toJson, .ok ())

/-- The `YARNModel.applications`: `state.get("application-metrics", {})` on
the decoded snapshot object. -/
def modelApplications (snapshot : AssocList) : JVal :=
  (alookup snapshot "application-metrics").getD (.obj [])

/-- The `YARNModel.current_rm`: `state.get("current-rm", '')`. -/
def modelCurrentRm (snapshot : AssocList) : JVal :=
  (alookup snapshot "current-rm").getD (.str "")

/-- The `YARNModel.application_info`:
`state.get("application-metrics", {}).get(application_id, {})`. -/
def modelApplicationInfo (snapshot : AssocList) (appId : String) : JVal :=
  match (alookup snapshot "application-metrics").getD (.obj []) with
  | .obj apps => (alookup apps appId).getD (.obj [])
  | _ => .obj []

/-- Clock value for the C9 witness. -/
def wNow : PyDateTime := ⟨2024, 1, 2, 3, 4, 5, 0⟩

/-- First clock value for the C8 witness. -/
def wT1 : PyDateTime := ⟨2024, 5, 6, 7, 8, 9, 0⟩

/-- Second clock value for the C8 witness, half a second later. -/
def wT2 : PyDateTime := ⟨2024, 5, 6, 7, 8, 9, 500000⟩

/-! ## Theorems -/

/-- Each iteration of the loop issues exactly one GET, so at most
`fuel` GETs are issued in total. -/
theorem getUrlGo_attempts_le (allHosts : List String) (respond : Nat → String → RMResp) :
    ∀ fuel attempts available cur,
      (getUrlGo allHosts respond fuel attempts available cur).2 ≤ attempts + fuel := by
  intro fuel
  induction fuel with
  | zero => intro attempts available cur; simp [getUrlGo]
  | succ n ih =>
    intro attempts available cur
    rw [getUrlGo]
    dsimp only
    split
    · split
      · split
        · omega
        · split
          · omega
          · rename_i newHost _
            have := ih (attempts + 1) (available.erase cur) newHost
            omega
      · omega
    · split
      · omega
      · rename_i newHost _
        have := ih (attempts + 1) available newHost
        omega

/-- When every response is a sub-400 redirect, the loop consumes all its
fuel and raises `Too many YARN redirects`. -/
theorem getUrlGo_always_redirect (allHosts : List String) (respond : Nat → String → RMResp)
    (hred : ∀ i host, (respond i host).status < 400 ∧ (respond i host).refresh ≠ none) :
    ∀ fuel attempts available cur,
      getUrlGo allHosts respond fuel attempts available cur
        = (.error .tooManyRedirects, attempts + fuel) := by
  intro fuel
  induction fuel with
  | zero => intro attempts available cur; simp [getUrlGo]
  | succ n ih =>
    intro attempts available cur
    obtain ⟨hlt, hrf⟩ := hred attempts cur
    rw [getUrlGo]
    dsimp only
    rw [if_neg (by omega)]
    match h : (respond attempts cur).refresh with
    | none => exact absurd h hrf
    | some newHost =>
      show getUrlGo allHosts respond n (attempts + 1) available newHost = _
      rw [ih (attempts + 1) available newHost]
      congr 1
      omega

/-- C4: a resource manager that answers every GET with a sub-error status
carrying a `Refresh` redirect makes `get_url` fail with the
`Too many YARN redirects` error after exactly 5 GET attempts, and for any
response sequence whatsoever the loop issues at most 5 GETs. -/
theorem getUrl_redirect_bound (h : YARNHandler) (respond : Nat → String → RMResp)
    (hred : ∀ i host, (respond i host).status < 400 ∧ (respond i host).refresh ≠ none) :
    h.getUrl respond = (.error .tooManyRedirects, 5)
      ∧ ∀ (h2 : YARNHandler) (respond2 : Nat → String → RMResp),
          (h2.getUrl respond2).2 ≤ 5 := by
  constructor
  · show getUrlGo _ _ MAX_HA_REDIRECTS 0 _ _ = _
    rw [getUrlGo_always_redirect h.allHosts respond hred]
    rfl
  · intro h2 respond2
    exact getUrlGo_attempts_le h2.allHosts respond2 MAX_HA_REDIRECTS 0 h2.allHosts.dedup h2.host

/-- Witness for the redirect bound at a concrete two-host client against
the always-redirecting resource manager. -/
theorem getUrl_redirect_bound_witness :
    (∀ i host, (alwaysRedirectRespond i host).status < 400
        ∧ (alwaysRedirectRespond i host).refresh ≠ none)
      ∧ (YARNHandler.init "http://a,http://b").getUrl alwaysRedirectRespond
          = (.error .tooManyRedirects, 5) := by
  have hred : ∀ i host, (alwaysRedirectRespond i host).status < 400
      ∧ (alwaysRedirectRespond i host).refresh ≠ none := by
    intro i host
    exact ⟨by simp [alwaysRedirectRespond], by simp [alwaysRedirectRespond]⟩
  exact ⟨hred,
    (getUrl_redirect_bound (YARNHandler.init "http://a,http://b") alwaysRedirectRespond hred).1⟩

/-- C1 (code bug): with hosts `[http://a, http://b]` where the primary
fails and the standby would succeed, `get_url` does not fail over to
`http://b`: the `for new_host in self.all_hosts: break` line re-selects
`all_hosts[0] = http://a` instead of a member of the remaining working
set, and the second iteration's `available_hosts.remove('http://a')`
raises `KeyError` after only 2 GETs — the call never reaches `http://b`
and surfaces an error even though a standby is healthy. -/
theorem getUrl_failover_keyerror :
    (YARNHandler.init "http://a,http://b").getUrl failoverRespond
      = (.error (.keyErrorHost "http://a"), 2) := rfl

/-- A successful `baseGenerate` means each of the twelve verbatim fields
was present and copied into the record, and the progress list is empty. -/
theorem baseGenerate_ok_inv {app : AssocList} {info : StdInfo}
    (h : baseGenerate app = .ok info) :
    alookup app "id" = some info.id ∧ alookup app "name" = some info.name
      ∧ alookup app "user" = some info.user
      ∧ alookup app "applicationType" = some info.applicationType
      ∧ alookup app "queue" = some info.queue
      ∧ alookup app "startedTime" = some info.startedTime
      ∧ alookup app "allocatedMB" = some info.allocatedMB
      ∧ alookup app "allocatedVCores" = some info.allocatedVCores
      ∧ alookup app "trackingUrl" = some info.trackingUrl
      ∧ alookup app "state" = some info.state
      ∧ alookup app "memorySeconds" = some info.memorySeconds
      ∧ alookup app "vcoreSeconds" = some info.vcoreSeconds
      ∧ info.progress = [] := by
  unfold baseGenerate at h
  split at h
  next h1 => exact absurd h (by simp)
  next v1 h1 =>
  split at h
  next h2 => exact absurd h (by simp)
  next v2 h2 =>
  split at h
  next h3 => exact absurd h (by simp)
  next v3 h3 =>
  split at h
  next h4 => exact absurd h (by simp)
  next v4 h4 =>
  split at h
  next h5 => exact absurd h (by simp)
  next v5 h5 =>
  split at h
  next h6 => exact absurd h (by simp)
  next v6 h6 =>
  split at h
  next h7 => exact absurd h (by simp)
  next v7 h7 =>
  split at h
  next h8 => exact absurd h (by simp)
  next v8 h8 =>
  split at h
  next h9 => exact absurd h (by simp)
  next v9 h9 =>
  split at h
  next h10 => exact absurd h (by simp)
  next v10 h10 =>
  split at h
  next h11 => exact absurd h (by simp)
  next v11 h11 =>
  split at h
  next h12 => exact absurd h (by simp)
  next v12 h12 =>
  injection h with h'
  subst h'
  exact ⟨h1, h2, h3, h4, h5, h6, h7, h8, h9, h10, h11, h12, rfl⟩

/-- A successful handler attempt implies a successful `baseGenerate`
(every handler variant builds the base record first). -/
theorem tryGenerate_ok_base {reg : HandlerRegistry} {net : TrackingNet}
    {app : AssocList} {info : StdInfo}
    (h : tryGenerate reg net app = .ok info) :
    ∃ info0, baseGenerate app = .ok info0 := by
  unfold tryGenerate at h
  split at h
  next => exact absurd h (by simp)
  next ah _ =>
    unfold generateStandardizedInfo at h
    split at h
    · exact ⟨info, h⟩
    · unfold sparkGenerate at h
      split at h
      next => exact absurd h (by simp)
      next r hr =>
        exact ⟨r, hr⟩
    · unfold mapredGenerate at h
      split at h
      next => exact absurd h (by simp)
      next r hr =>
        exact ⟨r, hr⟩

/-- The id of a successful handler attempt is the id field of the
application record (the handlers modify only state and progress). -/
theorem tryGenerate_ok_id {reg : HandlerRegistry} {net : TrackingNet}
    {app : AssocList} {info : StdInfo}
    (h : tryGenerate reg net app = .ok info) :
    alookup app "id" = some info.id := by
  unfold tryGenerate at h
  split at h
  next => exact absurd h (by simp)
  next ah _ =>
    unfold generateStandardizedInfo at h
    split at h
    · exact (baseGenerate_ok_inv h).1
    · unfold sparkGenerate at h
      split at h
      next => exact absurd h (by simp)
      next r hr =>
        split at h
        next => exact absurd h (by simp)
        next jobs _ =>
          split at h <;>
          · cases hall : net.sparkJobs ah.applicationId none with
            | error e =>
              rw [hall] at h
              simp at h
            | ok allJobs =>
              rw [hall] at h
              dsimp only at h
              injection h with h'
              rw [← h']
              exact (baseGenerate_ok_inv hr).1
    · unfold mapredGenerate at h
      split at h
      next => exact absurd h (by simp)
      next r hr =>
        split at h
        next => exact absurd h (by simp)
        next jobs _ =>
          split at h <;>
          · injection h with h'
            rw [← h']
            exact (baseGenerate_ok_inv hr).1

/-- A successful fallback yields the base record with the state forced to
the `NON_RESPONSIVE` sentinel. -/
theorem fallbackTask_ok_inv {app : AssocList} {info : StdInfo}
    (h : fallbackTask app = .ok info) :
    ∃ info0, baseGenerate app = .ok info0
      ∧ info = { info0 with state := .str NON_RESPONSIVE_STATE } := by
  unfold fallbackTask at h
  split at h
  next => exact absurd h (by simp)
  next turl _ =>
  split at h
  next => exact absurd h (by simp)
  next aid _ =>
  split at h
  next => exact absurd h (by simp)
  next ah _ =>
  split at h
  next => exact absurd h (by simp)
  next info0 h0 =>
    injection h with h'
    exact ⟨info0, h0, h'.symm⟩

/-- The `run_task` returns the handler attempt's record untouched when the
attempt succeeds. -/
theorem runTask_ok_of_try {reg : HandlerRegistry} {net : TrackingNet}
    {app : AssocList} {info : StdInfo}
    (h : tryGenerate reg net app = .ok info) :
    runTask reg net app = .ok info := by
  unfold runTask
  rw [h]

/-- When the handler attempt failed, a successful `run_task` result is the
fallback record, whose state is the `NON_RESPONSIVE` sentinel. -/
theorem runTask_fallback_sentinel {reg : HandlerRegistry} {net : TrackingNet}
    {app : AssocList} {e : WorkerError} {info : StdInfo}
    (he : tryGenerate reg net app = .error e)
    (h : runTask reg net app = .ok info) :
    info.state = .str NON_RESPONSIVE_STATE := by
  unfold runTask at h
  rw [he] at h
  obtain ⟨info0, -, rfl⟩ := fallbackTask_ok_inv h
  rfl

/-- A successful `run_task` presupposes a successful `baseGenerate`. -/
theorem runTask_ok_base {reg : HandlerRegistry} {net : TrackingNet}
    {app : AssocList} {info : StdInfo}
    (h : runTask reg net app = .ok info) :
    ∃ info0, baseGenerate app = .ok info0 := by
  unfold runTask at h
  split at h
  next hok =>
    injection h with h'
    subst h'
    exact tryGenerate_ok_base hok
  next =>
    obtain ⟨info0, h0, -⟩ := fallbackTask_ok_inv h
    exact ⟨info0, h0⟩

/-- The id of every successful `run_task` record is the id field of the
input application record. -/
theorem runTask_ok_id {reg : HandlerRegistry} {net : TrackingNet}
    {app : AssocList} {info : StdInfo}
    (h : runTask reg net app = .ok info) :
    alookup app "id" = some info.id := by
  unfold runTask at h
  split at h
  next hok =>
    injection h with h'
    subst h'
    exact tryGenerate_ok_id hok
  next =>
    obtain ⟨info0, h0, rfl⟩ := fallbackTask_ok_inv h
    exact (baseGenerate_ok_inv h0).1

/-- Pointwise successful tasks materialize to a successful `mapM`. -/
theorem mapM_ok_of_forall₂ {α β : Type} {f : α → Except WorkerError β} :
    ∀ {l : List α} {r : List β},
      List.Forall₂ (fun a b => f a = .ok b) l r → l.mapM f = .ok r := by
  intro l r h
  induction h with
  | nil => rfl
  | cons hab _ ih => rw [List.mapM_cons, hab, ih]; rfl

/-- If some element of the list makes `f` raise, the materialization of
`mapM` raises as well (the first raising element wins). -/
theorem mapM_error_of_bad {α β : Type} {f : α → Except WorkerError β} :
    ∀ {l : List α}, (∃ a ∈ l, ∀ b, f a ≠ .ok b) →
      ∃ e, l.mapM f = .error e := by
  intro l
  induction l with
  | nil =>
    rintro ⟨a, ha, -⟩
    exact absurd ha (List.not_mem_nil a)
  | cons x xs ih =>
    rintro ⟨a, ha, hbad⟩
    rw [List.mapM_cons]
    cases hfx : f x with
    | error e => exact ⟨e, by simp [hfx, bind, Except.bind]⟩
    | ok b =>
      have ha' : a ∈ xs := by
        rcases List.mem_cons.mp ha with rfl | h'
        · exact absurd hfx (hbad b)
        · exact h'
      obtain ⟨e, he⟩ := ih ⟨a, ha', hbad⟩
      refine ⟨e, ?_⟩
      show (xs.mapM f >>= fun bs => pure (b :: bs)) = .error e
      rw [he]
      rfl

/-- Membership in an upserted dict comes from the old dict or carries the
inserted value. -/
theorem mem_upsert {k : JVal} {v : StdInfo} {kv : JVal × StdInfo} :
    ∀ {d : List (JVal × StdInfo)}, kv ∈ upsert d k v → kv ∈ d ∨ kv.2 = v := by
  intro d
  induction d with
  | nil =>
    intro h
    rcases List.mem_singleton.mp h with rfl
    exact Or.inr rfl
  | cons p rest ih =>
    intro h
    unfold upsert at h
    split at h
    · rcases List.mem_cons.mp h with rfl | h'
      · exact Or.inr rfl
      · exact Or.inl (List.mem_cons_of_mem _ h')
    · rcases List.mem_cons.mp h with rfl | h'
      · exact Or.inl (List.mem_cons_self _ _)
      · rcases ih h' with h'' | h''
        · exact Or.inl (List.mem_cons_of_mem _ h'')
        · exact Or.inr h''

/-- Accumulator-generalized form of `keyById_values`. -/
theorem keyById_values_aux (res : List StdInfo) :
    ∀ (acc : List (JVal × StdInfo)),
      ∀ kv ∈ res.foldl (fun d info => upsert d info.id info) acc,
        kv ∈ acc ∨ kv.2 ∈ res := by
  induction res with
  | nil => intro acc kv h; exact Or.inl h
  | cons i rest ih =>
    intro acc kv h
    simp only [List.foldl_cons] at h
    rcases ih (upsert acc i.id i) kv h with h' | h'
    · rcases mem_upsert h' with h'' | h''
      · exact Or.inl h''
      · exact Or.inr (by rw [h'']; exact List.mem_cons_self _ _)
    · exact Or.inr (List.mem_cons_of_mem _ h')

/-- Every value stored in the id-keyed dict is one of the standardized
records it was built from. -/
theorem keyById_values {res : List StdInfo} :
    ∀ kv ∈ keyById res, kv.2 ∈ res := by
  intro kv h
  rcases keyById_values_aux res [] kv h with h' | h'
  · exact absurd h' (List.not_mem_nil kv)
  · exact h'

/-- Upserting a key that collides with no key of the dict appends. -/
theorem upsert_append {k : JVal} {v : StdInfo} :
    ∀ {d : List (JVal × StdInfo)},
      (∀ p ∈ d, JVal.beq p.1 k = false) → upsert d k v = d ++ [(k, v)] := by
  intro d
  induction d with
  | nil => intro _; rfl
  | cons p rest ih =>
    intro hall
    have h0 : JVal.beq p.1 k = false := hall p (List.mem_cons_self _ _)
    unfold upsert
    rw [if_neg (by simp [h0]), ih fun q hq => hall q (List.mem_cons_of_mem _ hq)]
    rfl

/-- Accumulator-generalized form of `keyById_nodup`. -/
theorem keyById_nodup_aux :
    ∀ (res : List StdInfo) (acc : List (JVal × StdInfo)),
      (∀ p ∈ acc, ∀ i ∈ res, JVal.beq p.1 i.id = false) →
      ((res.map StdInfo.id).Pairwise fun a b => JVal.beq a b = false) →
      res.foldl (fun d info => upsert d info.id info) acc
        = acc ++ res.map fun i => (i.id, i) := by
  intro res
  induction res with
  | nil => intro acc _ _; simp
  | cons i rest ih =>
    intro acc hacc hpw
    rw [List.map_cons] at hpw
    obtain ⟨hhead, htail⟩ := List.pairwise_cons.mp hpw
    simp only [List.foldl_cons, List.map_cons]
    rw [upsert_append fun p hp => hacc p hp i (List.mem_cons_self _ _)]
    rw [ih (acc ++ [(i.id, i)]) ?ha ?hb]
    · simp
    case ha =>
      intro p hp j hj
      rcases List.mem_append.mp hp with h' | h'
      · exact hacc p h' j (List.mem_cons_of_mem _ hj)
      · rcases List.mem_singleton.mp h' with rfl
        exact hhead j.id (List.mem_map_of_mem StdInfo.id hj)
    case hb => exact htail

/-- With pairwise-distinct record ids, Python's dict comprehension keyed by
id preserves the records in order, one entry per input record. -/
theorem keyById_nodup (res : List StdInfo)
    (h : (res.map StdInfo.id).Pairwise fun a b => JVal.beq a b = false) :
    keyById res = res.map fun i => (i.id, i) := by
  have := keyById_nodup_aux res []
    (by intro p hp; exact absurd hp (List.not_mem_nil p)) h
  simpa [keyById] using this

/-- A right-hand member of a `Forall₂` has a related left-hand partner. -/
theorem forall₂_mem_right {α β : Type} {R : α → β → Prop} :
    ∀ {l : List α} {r : List β}, List.Forall₂ R l r →
      ∀ b ∈ r, ∃ a ∈ l, R a b := by
  intro l r h
  induction h with
  | nil => intro b hb; exact absurd hb (List.not_mem_nil b)
  | cons hab _ ih =>
    intro b hb
    rcases List.mem_cons.mp hb with rfl | hb'
    · exact ⟨_, List.mem_cons_self _ _, hab⟩
    · obtain ⟨a, ha, hr⟩ := ih b hb'
      exact ⟨a, List.mem_cons_of_mem _ ha, hr⟩

/-- A left-hand member of a `Forall₂` has a related right-hand partner. -/
theorem forall₂_mem_left {α β : Type} {R : α → β → Prop} :
    ∀ {l : List α} {r : List β}, List.Forall₂ R l r →
      ∀ a ∈ l, ∃ b ∈ r, R a b := by
  intro l r h
  induction h with
  | nil => intro a ha; exact absurd ha (List.not_mem_nil a)
  | cons hab _ ih =>
    intro a ha
    rcases List.mem_cons.mp ha with rfl | ha'
    · exact ⟨_, List.mem_cons_self _ _, hab⟩
    · obtain ⟨b, hb, hr⟩ := ih a ha'
      exact ⟨b, List.mem_cons_of_mem _ hb, hr⟩

/-- C5: when every task succeeds and the standardized ids are pairwise
distinct, the keys of the listing are exactly the ids of the input
applications, in order — none dropped, none duplicated, none added; and a
response with a missing `apps` key, a null `apps` value, or an empty
application array produces the empty map rather than an error. -/
theorem generateListing_keys (reg : HandlerRegistry) (net : TrackingNet)
    (resp : AssocList) (apps : List AssocList) (results : List StdInfo)
    (hex : extractApps resp = .ok (some apps))
    (hrt : List.Forall₂ (fun app info => runTask reg net app = .ok info) apps results)
    (hids : (results.map StdInfo.id).Pairwise fun a b => JVal.beq a b = false) :
    (∃ l, generateListing reg net resp = .ok l
        ∧ l.map Prod.fst = results.map StdInfo.id
        ∧ List.Forall₂ (fun app k => alookup app "id" = some k) apps
            (l.map Prod.fst))
      ∧ ∀ resp2 : AssocList,
          (alookup resp2 "apps" = none ∨ alookup resp2 "apps" = some .null
            ∨ extractApps resp2 = .ok (some [])) →
          generateListing reg net resp2 = .ok [] := by
  constructor
  · have hmap : apps.mapM (runTask reg net) = .ok results := mapM_ok_of_forall₂ hrt
    have hlink : List.Forall₂ (fun app k => alookup app "id" = some k) apps
        (results.map StdInfo.id) :=
      List.forall₂_map_right_iff.mpr
        (List.Forall₂.imp (fun _ _ h => runTask_ok_id h) hrt)
    by_cases hc : results.countP isNonResponsive = results.length
    · have hpw' : (((results.map fun info =>
          { info with state := JVal.str "UNKNOWN" }).map StdInfo.id)).Pairwise
            fun a b => JVal.beq a b = false := by
        rw [List.map_map]
        exact hids
      have hkeys : (keyById (results.map fun info =>
          { info with state := JVal.str "UNKNOWN" })).map Prod.fst
            = results.map StdInfo.id := by
        rw [keyById_nodup _ hpw', List.map_map, List.map_map]
        rfl
      refine ⟨_, ?_, hkeys, by rw [hkeys]; exact hlink⟩
      unfold generateListing
      rw [hex]
      dsimp only
      rw [hmap]
      dsimp only
      rw [if_pos hc]
    · have hkeys : (keyById results).map Prod.fst = results.map StdInfo.id := by
        rw [keyById_nodup _ hids, List.map_map]
        rfl
      refine ⟨_, ?_, hkeys, by rw [hkeys]; exact hlink⟩
      unfold generateListing
      rw [hex]
      dsimp only
      rw [hmap]
      dsimp only
      rw [if_neg hc]
  · intro resp2 h2
    rcases h2 with h2 | h2 | h2
    · have hex2 : extractApps resp2 = .ok none := by
        unfold extractApps
        rw [h2]
      unfold generateListing
      rw [hex2]
    · have hex2 : extractApps resp2 = .ok none := by
        unfold extractApps
        rw [h2]
      unfold generateListing
      rw [hex2]
    · unfold generateListing
      rw [h2]
      rfl

/-- Witness for C5 at a concrete two-application response with distinct
ids. -/
theorem generateListing_keys_witness :
    extractApps listResp = .ok (some [listApp1, listApp2])
      ∧ List.Forall₂ (fun app info => runTask workerRegistry downNet app = .ok info)
          [listApp1, listApp2] [listInfo1, listInfo2]
      ∧ (([listInfo1, listInfo2].map StdInfo.id).Pairwise
          fun a b => JVal.beq a b = false)
      ∧ ((∃ l, generateListing workerRegistry downNet listResp = .ok l
            ∧ l.map Prod.fst = [listInfo1, listInfo2].map StdInfo.id
            ∧ List.Forall₂ (fun app k => alookup app "id" = some k)
                [listApp1, listApp2] (l.map Prod.fst))
          ∧ ∀ resp2 : AssocList,
              (alookup resp2 "apps" = none ∨ alookup resp2 "apps" = some .null
                ∨ extractApps resp2 = .ok (some [])) →
              generateListing workerRegistry downNet resp2 = .ok []) := by
  have hex : extractApps listResp = .ok (some [listApp1, listApp2]) := rfl
  have hrt : List.Forall₂
      (fun app info => runTask workerRegistry downNet app = .ok info)
      [listApp1, listApp2] [listInfo1, listInfo2] :=
    List.Forall₂.cons rfl (List.Forall₂.cons rfl List.Forall₂.nil)
  have hpw : (([listInfo1, listInfo2].map StdInfo.id).Pairwise
      fun a b => JVal.beq a b = false) := by
    constructor
    · intro b hb
      rcases List.mem_singleton.mp hb with rfl
      rfl
    · constructor
      · intro b hb
        exact absurd hb (List.not_mem_nil b)
      · exact List.Pairwise.nil
  exact ⟨hex, hrt, hpw,
    generateListing_keys workerRegistry downNet listResp _ _ hex hrt hpw⟩

/-- The `isNonResponsive` tests for the literal sentinel state value. -/
theorem isNonResponsive_iff (info : StdInfo) :
    isNonResponsive info = true ↔ info.state = .str NON_RESPONSIVE_STATE := by
  unfold isNonResponsive
  cases hs : info.state <;> simp [JVal.eqStr, NON_RESPONSIVE_STATE]

/-- Upsert never empties a dict. -/
theorem upsert_ne_nil {d : List (JVal × StdInfo)} {k : JVal} {v : StdInfo} :
    upsert d k v ≠ [] := by
  cases d with
  | nil => simp [upsert]
  | cons p rest =>
    unfold upsert
    split <;> simp

/-- Folding upserts over a non-empty accumulator keeps it non-empty. -/
theorem foldl_upsert_ne_nil :
    ∀ (res : List StdInfo) (acc : List (JVal × StdInfo)), acc ≠ [] →
      res.foldl (fun d info => upsert d info.id info) acc ≠ [] := by
  intro res
  induction res with
  | nil => intro acc h; simpa
  | cons i rest ih =>
    intro acc h
    simp only [List.foldl_cons]
    exact ih _ upsert_ne_nil

/-- The id-keyed dict of a non-empty result list is non-empty. -/
theorem keyById_ne_nil {res : List StdInfo} (h : res ≠ []) : keyById res ≠ [] := by
  cases res with
  | nil => exact absurd rfl h
  | cons i rest =>
    unfold keyById
    simp only [List.foldl_cons]
    exact foldl_upsert_ne_nil rest _ upsert_ne_nil

/-- C3 counterexample: only the first application's detail fetch fails
(a strict non-empty subset), yet the mass-failure downgrade fires anyway
because it counts the sentinel state value and the second application's
verbatim state already equals the sentinel. The failing application's
state ends as `UNKNOWN` rather than `NON_RESPONSIVE`, and the successful
application's record is not left unaffected. -/
theorem generateListing_sentinel_collision :
    tryGenerate workerRegistry downNet massApp1 = .error .netError
      ∧ tryGenerate workerRegistry downNet massApp2 = .ok massInfo2
      ∧ generateListing workerRegistry downNet massResp
          = .ok [(.str "s1", massOut1), (.str "b2", massOut2)]
      ∧ massOut1.state = .str "UNKNOWN"
      ∧ massOut1.state ≠ .str NON_RESPONSIVE_STATE
      ∧ massOut2 ≠ massInfo2 := by
  refine ⟨rfl, rfl, rfl, rfl, ?_, ?_⟩
  · intro h
    injection h with h'
    exact absurd h' (by decide)
  · intro h
    have h' := congrArg StdInfo.state h
    injection h' with h''
    exact absurd h'' (by decide)

/-- C3 amended: (a) when the application list is non-empty and every
application's handler attempt raises, every state in the listing is
`UNKNOWN`; (b) when the raising applications form a strict non-empty
subset AND no successful record's state carries the literal
`NON_RESPONSIVE` sentinel, the downgrade does not fire: raising
applications carry the sentinel state and successful applications' records
are exactly the handler attempts' outputs, untouched. -/
theorem generateListing_mass_failure (reg : HandlerRegistry) (net : TrackingNet)
    (resp : AssocList) (apps : List AssocList) (results : List StdInfo)
    (hex : extractApps resp = .ok (some apps))
    (hrt : List.Forall₂ (fun app info => runTask reg net app = .ok info) apps results) :
    ((apps ≠ [] ∧ ∀ app ∈ apps, ∃ e, tryGenerate reg net app = .error e) →
        ∃ l, generateListing reg net resp = .ok l ∧ l ≠ []
          ∧ ∀ kv ∈ l, kv.2.state = .str "UNKNOWN")
      ∧ (((∃ app ∈ apps, ∃ e, tryGenerate reg net app = .error e)
            ∧ (∃ app ∈ apps, ∃ info, tryGenerate reg net app = .ok info)
            ∧ (∀ app ∈ apps, ∀ info, tryGenerate reg net app = .ok info →
                info.state ≠ .str NON_RESPONSIVE_STATE)) →
          generateListing reg net resp = .ok (keyById results)
            ∧ List.Forall₂ (fun app info =>
                runTask reg net app = .ok info
                  ∧ (tryGenerate reg net app = .ok info
                      ∨ info.state = .str NON_RESPONSIVE_STATE)) apps results) := by
  have hmap : apps.mapM (runTask reg net) = .ok results := mapM_ok_of_forall₂ hrt
  constructor
  · rintro ⟨hne, hfail⟩
    have hall : ∀ info ∈ results, isNonResponsive info = true := by
      intro info hinfo
      obtain ⟨app, happ, hR⟩ := forall₂_mem_right hrt info hinfo
      obtain ⟨e, he⟩ := hfail app happ
      exact (isNonResponsive_iff info).mpr (runTask_fallback_sentinel he hR)
    have hcount : results.countP isNonResponsive = results.length :=
      List.countP_eq_length.mpr hall
    have hrne : results ≠ [] := by
      intro h0
      subst h0
      cases hrt
      exact hne rfl
    refine ⟨keyById (results.map fun info => { info with state := JVal.str "UNKNOWN" }),
      ?_, ?_, ?_⟩
    · unfold generateListing
      rw [hex]
      dsimp only
      rw [hmap]
      dsimp only
      rw [if_pos hcount]
    · exact keyById_ne_nil (by simpa using hrne)
    · intro kv hkv
      have h2 := keyById_values kv hkv
      obtain ⟨orig, -, heq⟩ := List.mem_map.mp h2
      rw [← heq]
  · rintro ⟨⟨appf, happf, e, hef⟩, ⟨apps0, happs0, info0, hok0⟩, hns⟩
    have hmemres : info0 ∈ results := by
      obtain ⟨b, hb, hRb⟩ := forall₂_mem_left hrt apps0 happs0
      rw [runTask_ok_of_try hok0] at hRb
      injection hRb with h'
      rwa [← h'] at hb
    have hnotall : ¬ results.countP isNonResponsive = results.length := by
      intro hc
      have h1 := List.countP_eq_length.mp hc info0 hmemres
      exact hns apps0 happs0 info0 hok0 ((isNonResponsive_iff info0).mp h1)
    constructor
    · unfold generateListing
      rw [hex]
      dsimp only
      rw [hmap]
      dsimp only
      rw [if_neg hnotall]
    · refine List.Forall₂.imp ?_ hrt
      intro app info hR
      refine ⟨hR, ?_⟩
      cases htry : tryGenerate reg net app with
      | ok j =>
        have h2 := runTask_ok_of_try htry
        rw [h2] at hR
        injection hR with h'
        refine Or.inl ?_
        rw [← h']
      | error e' =>
        exact Or.inr (runTask_fallback_sentinel htry hR)

/-- Witness for the amended C3 at a concrete failing/succeeding pair of
applications. -/
theorem generateListing_mass_failure_witness :
    extractApps mixedResp = .ok (some [massApp1, okApp])
      ∧ List.Forall₂
          (fun app info => runTask workerRegistry downNet app = .ok info)
          [massApp1, okApp] [massFall1, okInfo]
      ∧ (((([massApp1, okApp] : List AssocList) ≠ []
            ∧ ∀ app ∈ ([massApp1, okApp] : List AssocList),
                ∃ e, tryGenerate workerRegistry downNet app = .error e) →
          ∃ l, generateListing workerRegistry downNet mixedResp = .ok l
            ∧ l ≠ [] ∧ ∀ kv ∈ l, kv.2.state = .str "UNKNOWN")
        ∧ (((∃ app ∈ ([massApp1, okApp] : List AssocList),
              ∃ e, tryGenerate workerRegistry downNet app = .error e)
            ∧ (∃ app ∈ ([massApp1, okApp] : List AssocList),
                ∃ info, tryGenerate workerRegistry downNet app = .ok info)
            ∧ (∀ app ∈ ([massApp1, okApp] : List AssocList),
                ∀ info, tryGenerate workerRegistry downNet app = .ok info →
                  info.state ≠ .str NON_RESPONSIVE_STATE)) →
          generateListing workerRegistry downNet mixedResp
              = .ok (keyById [massFall1, okInfo])
            ∧ List.Forall₂ (fun app info =>
                runTask workerRegistry downNet app = .ok info
                  ∧ (tryGenerate workerRegistry downNet app = .ok info
                      ∨ info.state = .str NON_RESPONSIVE_STATE))
                [massApp1, okApp] [massFall1, okInfo])) := by
  have hex : extractApps mixedResp = .ok (some [massApp1, okApp]) := rfl
  have hrt : List.Forall₂
      (fun app info => runTask workerRegistry downNet app = .ok info)
      [massApp1, okApp] [massFall1, okInfo] :=
    List.Forall₂.cons rfl (List.Forall₂.cons rfl List.Forall₂.nil)
  exact ⟨hex, hrt,
    generateListing_mass_failure workerRegistry downNet mixedResp _ _ hex hrt⟩

/-- C10: if an application record lacks one of the twelve verbatim fields,
the handler attempt raises, the fallback path raises again outside the
`try` block, `run_task` never yields a record (in particular the
application is not marked `NON_RESPONSIVE`), and the whole listing step
raises. -/
theorem generateListing_missing_field (reg : HandlerRegistry) (net : TrackingNet)
    (resp : AssocList) (apps : List AssocList) (app : AssocList) (k : String)
    (hex : extractApps resp = .ok (some apps)) (hmem : app ∈ apps)
    (hk : k ∈ verbatimFields) (hmiss : alookup app k = none) :
    (∃ e, tryGenerate reg net app = .error e)
      ∧ (∃ e, fallbackTask app = .error e)
      ∧ (∀ info, runTask reg net app ≠ .ok info)
      ∧ ∃ e, generateListing reg net resp = .error e := by
  have hbase : ∀ info0, baseGenerate app ≠ .ok info0 := by
    intro info0 h0
    obtain ⟨q1, q2, q3, q4, q5, q6, q7, q8, q9, q10, q11, q12, -⟩ :=
      baseGenerate_ok_inv h0
    simp only [verbatimFields, List.mem_cons, List.not_mem_nil, or_false] at hk
    rcases hk with rfl | rfl | rfl | rfl | rfl | rfl | rfl | rfl | rfl | rfl | rfl | rfl
    · rw [hmiss] at q1; exact Option.noConfusion q1
    · rw [hmiss] at q2; exact Option.noConfusion q2
    · rw [hmiss] at q3; exact Option.noConfusion q3
    · rw [hmiss] at q4; exact Option.noConfusion q4
    · rw [hmiss] at q5; exact Option.noConfusion q5
    · rw [hmiss] at q6; exact Option.noConfusion q6
    · rw [hmiss] at q7; exact Option.noConfusion q7
    · rw [hmiss] at q8; exact Option.noConfusion q8
    · rw [hmiss] at q9; exact Option.noConfusion q9
    · rw [hmiss] at q10; exact Option.noConfusion q10
    · rw [hmiss] at q11; exact Option.noConfusion q11
    · rw [hmiss] at q12; exact Option.noConfusion q12
  have htry : ∃ e, tryGenerate reg net app = .error e := by
    cases h : tryGenerate reg net app with
    | error e => exact ⟨e, rfl⟩
    | ok info =>
      obtain ⟨i0, h0⟩ := tryGenerate_ok_base h
      exact absurd h0 (hbase i0)
  have hfall : ∃ e, fallbackTask app = .error e := by
    cases h : fallbackTask app with
    | error e => exact ⟨e, rfl⟩
    | ok info =>
      obtain ⟨i0, h0, -⟩ := fallbackTask_ok_inv h
      exact absurd h0 (hbase i0)
  have hnotok : ∀ info, runTask reg net app ≠ .ok info := by
    intro info h
    obtain ⟨i0, h0⟩ := runTask_ok_base h
    exact absurd h0 (hbase i0)
  refine ⟨htry, hfall, hnotok, ?_⟩
  obtain ⟨e, he⟩ :=
    @mapM_error_of_bad AssocList StdInfo (runTask reg net) apps ⟨app, hmem, hnotok⟩
  refine ⟨e, ?_⟩
  unfold generateListing
  rw [hex]
  dsimp only
  rw [he]

/-- Witness for C10 at a record lacking its `user` field. -/
theorem generateListing_missing_field_witness :
    extractApps gapResp = .ok (some [gapApp])
      ∧ gapApp ∈ ([gapApp] : List AssocList)
      ∧ "user" ∈ verbatimFields
      ∧ alookup gapApp "user" = none
      ∧ ((∃ e, tryGenerate workerRegistry downNet gapApp = .error e)
          ∧ (∃ e, fallbackTask gapApp = .error e)
          ∧ (∀ info, runTask workerRegistry downNet gapApp ≠ .ok info)
          ∧ ∃ e, generateListing workerRegistry downNet gapResp = .error e) := by
  refine ⟨rfl, List.mem_singleton.mpr rfl, by decide, rfl, ?_⟩
  exact generateListing_missing_field workerRegistry downNet gapResp [gapApp]
    gapApp "user" rfl (List.mem_singleton.mpr rfl) (by decide) rfl

/-- C2 counterexample: for an application of unrecognized type, the base
handler leaves the `progress` list empty — it does not emit a Progress
record built from the resource manager's coarse percentage out of 100. -/
theorem baseGenerate_empty_progress_counterexample :
    (baseGenerate pctApp).map StdInfo.progress = .ok []
      ∧ ¬ ∃ info p, baseGenerate pctApp = .ok info ∧ info.progress = [p]
          ∧ p.completed = 42 ∧ p.total = 100 := by
  refine ⟨rfl, ?_⟩
  rintro ⟨info, p, h, hp, -, -⟩
  have hprog : info.progress = [] := by
    have h0 : (baseGenerate pctApp).map StdInfo.progress = .ok info.progress := by
      rw [h]; rfl
    have h1 : (baseGenerate pctApp).map StdInfo.progress = .ok ([] : List Progress) := rfl
    rw [h1] at h0
    exact (Except.ok.injEq _ _).mp h0.symm
  rw [hprog] at hp
  exact List.noConfusion hp

/-- C2 amended: for every application whose `applicationType` is a string
with no registered handler, the task's handler attempt resolves to the
base handler, which copies the twelve fields verbatim and attaches an
empty `progress` list. -/
theorem tryGenerate_unregistered_base (reg : HandlerRegistry) (net : TrackingNet)
    (app : AssocList) (ty tu : String)
    (i n u q s mb vc st ms vs : JVal)
    (hty : alookup app "applicationType" = some (.str ty))
    (hreg : reg.lookup ty = none)
    (h1 : alookup app "id" = some i) (h2 : alookup app "name" = some n)
    (h3 : alookup app "user" = some u) (h5 : alookup app "queue" = some q)
    (h6 : alookup app "startedTime" = some s)
    (h7 : alookup app "allocatedMB" = some mb)
    (h8 : alookup app "allocatedVCores" = some vc)
    (h9 : alookup app "trackingUrl" = some (.str tu))
    (h10 : alookup app "state" = some st)
    (h11 : alookup app "memorySeconds" = some ms)
    (h12 : alookup app "vcoreSeconds" = some vs) :
    tryGenerate reg net app
      = .ok ⟨i, n, u, .str ty, q, s, mb, vc, .str tu, st, ms, vs, []⟩ := by
  simp [tryGenerate, makeApplicationHandler, registryGet, mkAppHandler,
    generateStandardizedInfo, baseGenerate, lookupE, hty, hreg, h1, h2, h3,
    h5, h6, h7, h8, h9, h10, h11, h12, bind, Except.bind]

/-- Witness: the amended C2 statement evaluated at the concrete record
`pctApp` (whose type `FANCY` is not in the worker's registry). -/
theorem tryGenerate_unregistered_base_witness :
    alookup pctApp "applicationType" = some (.str "FANCY")
      ∧ workerRegistry.lookup "FANCY" = none
      ∧ tryGenerate workerRegistry downNet pctApp
          = .ok ⟨.str "application_1", .str "wordcount", .str "alice",
                 .str "FANCY", .str "default", .num 1000, .num 2048, .num 4,
                 .str "http://tracker:8088", .str "RUNNING", .num 99, .num 7,
                 []⟩ := by
  refine ⟨rfl, rfl, ?_⟩
  exact tryGenerate_unregistered_base workerRegistry downNet pctApp "FANCY"
    "http://tracker:8088" (.str "application_1") (.str "wordcount")
    (.str "alice") (.str "default") (.num 1000) (.num 2048) (.num 4)
    (.str "RUNNING") (.num 99) (.num 7)
    rfl rfl rfl rfl rfl rfl rfl rfl rfl rfl rfl rfl rfl

/-- Generalized accumulator form of `_aggregate_tasks`. -/
theorem aggregateTasks_foldl (p : Progress) (tasks : List SparkJob) :
    tasks.foldl
      (fun p j =>
        { p with
          completed := p.completed + j.numCompletedTasks
          failed := p.failed + j.numFailedTasks
          running := p.running + j.numActiveTasks
          total := p.total + j.numTasks }) p
      = { p with
          completed := p.completed + (tasks.map SparkJob.numCompletedTasks).sum
          failed := p.failed + (tasks.map SparkJob.numFailedTasks).sum
          running := p.running + (tasks.map SparkJob.numActiveTasks).sum
          total := p.total + (tasks.map SparkJob.numTasks).sum } := by
  induction tasks generalizing p with
  | nil => simp
  | cons j rest ih =>
    simp only [List.foldl_cons, List.map_cons, List.sum_cons]
    rw [ih]
    simp only [Progress.mk.injEq, true_and, and_true, eq_self_iff_true]
    omega

/-- C6: on the two concrete jobs (only the first running) the Spark
handler emits exactly the `Running Tasks` and `Total` progress records
with the summed counters and forces the state to RUNNING; and in general
every counter of an aggregated `Progress` is the sum of the corresponding
job counters. -/
theorem sparkGenerate_aggregation :
    sparkGenerate sparkNet ⟨.spark, "http://tracker:4040", .str "application_2"⟩ sparkApp
      = .ok ⟨.str "application_2", .str "etl", .str "bob", .str "SPARK",
             .str "default", .num 2000, .num 4096, .num 8,
             .str "http://tracker:4040", .str "RUNNING", .num 11, .num 3,
             [⟨"Running Tasks", 3, 0, 1, 4⟩, ⟨"Total", 5, 1, 1, 7⟩]⟩
      ∧ ∀ (name : String) (tasks : List SparkJob),
          aggregateTasks name tasks
            = ⟨name, (tasks.map SparkJob.numCompletedTasks).sum,
                (tasks.map SparkJob.numFailedTasks).sum,
                (tasks.map SparkJob.numActiveTasks).sum,
                (tasks.map SparkJob.numTasks).sum⟩ := by
  constructor
  · rfl
  · intro name tasks
    unfold aggregateTasks
    rw [aggregateTasks_foldl]
    simp

/-- Witness instantiating the general aggregation conjunct of C6 on one
concrete job. -/
theorem sparkGenerate_aggregation_witness :
    aggregateTasks "one" [⟨9, 2, 1, 12⟩]
      = ⟨"one", ([⟨9, 2, 1, 12⟩].map SparkJob.numCompletedTasks).sum,
          ([(⟨9, 2, 1, 12⟩ : SparkJob)].map SparkJob.numFailedTasks).sum,
          ([(⟨9, 2, 1, 12⟩ : SparkJob)].map SparkJob.numActiveTasks).sum,
          ([(⟨9, 2, 1, 12⟩ : SparkJob)].map SparkJob.numTasks).sum⟩ :=
  sparkGenerate_aggregation.2 "one" [⟨9, 2, 1, 12⟩]

/-- A digit character round-trips through formatting and parsing. -/
theorem charDigit_digitChar (k : Nat) (h : k < 10) :
    charDigit (digitChar k) = some k := by
  interval_cases k <;> decide

/-- The `parse2` inverts `pad2`. -/
theorem parse2_pad2 (n : Nat) (h : n < 100) (rest : List Char) :
    parse2 (pad2 n ++ rest) = some (n, rest) := by
  have h1 : charDigit (digitChar (n / 10)) = some (n / 10) :=
    charDigit_digitChar _ (by omega)
  have h2 : charDigit (digitChar (n % 10)) = some (n % 10) :=
    charDigit_digitChar _ (by omega)
  show parse2 (digitChar (n / 10) :: digitChar (n % 10) :: rest) = some (n, rest)
  unfold parse2
  simp only [h1, h2]
  have : n / 10 * 10 + n % 10 = n := by omega
  rw [this]

/-- The `parse4` inverts `pad4`. -/
theorem parse4_pad4 (n : Nat) (h : n < 10000) (rest : List Char) :
    parse4 (pad4 n ++ rest) = some (n, rest) := by
  have h1 : charDigit (digitChar (n / 1000)) = some (n / 1000) :=
    charDigit_digitChar _ (by omega)
  have h2 : charDigit (digitChar (n / 100 % 10)) = some (n / 100 % 10) :=
    charDigit_digitChar _ (by omega)
  have h3 : charDigit (digitChar (n / 10 % 10)) = some (n / 10 % 10) :=
    charDigit_digitChar _ (by omega)
  have h4 : charDigit (digitChar (n % 10)) = some (n % 10) :=
    charDigit_digitChar _ (by omega)
  show parse4 (digitChar (n / 1000) :: digitChar (n / 100 % 10)
      :: digitChar (n / 10 % 10) :: digitChar (n % 10) :: rest)
      = some (n, rest)
  unfold parse4
  simp only [h1, h2, h3, h4]
  have : ((n / 1000 * 10 + n / 100 % 10) * 10 + n / 10 % 10) * 10 + n % 10 = n := by
    omega
  rw [this]

/-- The `parse6` inverts `pad6`. -/
theorem parse6_pad6 (n : Nat) (h : n < 1000000) (rest : List Char) :
    parse6 (pad6 n ++ rest) = some (n, rest) := by
  have h1 : charDigit (digitChar (n / 100000)) = some (n / 100000) :=
    charDigit_digitChar _ (by omega)
  have h2 : charDigit (digitChar (n / 10000 % 10)) = some (n / 10000 % 10) :=
    charDigit_digitChar _ (by omega)
  have h3 : charDigit (digitChar (n / 1000 % 10)) = some (n / 1000 % 10) :=
    charDigit_digitChar _ (by omega)
  have h4 : charDigit (digitChar (n / 100 % 10)) = some (n / 100 % 10) :=
    charDigit_digitChar _ (by omega)
  have h5 : charDigit (digitChar (n / 10 % 10)) = some (n / 10 % 10) :=
    charDigit_digitChar _ (by omega)
  have h6 : charDigit (digitChar (n % 10)) = some (n % 10) :=
    charDigit_digitChar _ (by omega)
  show parse6 (digitChar (n / 100000) :: digitChar (n / 10000 % 10)
      :: digitChar (n / 1000 % 10) :: digitChar (n / 100 % 10)
      :: digitChar (n / 10 % 10) :: digitChar (n % 10) :: rest)
      = some (n, rest)
  unfold parse6
  simp only [h1, h2, h3, h4, h5, h6]
  have : ((((n / 100000 * 10 + n / 10000 % 10) * 10 + n / 1000 % 10) * 10
      + n / 100 % 10) * 10 + n / 10 % 10) * 10 + n % 10 = n := by
    omega
  rw [this]

/-- The `expectChar` accepts its own character. -/
theorem expectChar_cons (c : Char) (rest : List Char) :
    expectChar c (c :: rest) = some rest := by
  simp [expectChar]

/-- The timestamp the worker publishes parses back to exactly the datetime
that was stamped: the `isoformat() + 'Z'` encoding is unambiguous. -/
theorem parseIsoZ_isoformat (d : PyDateTime) (h : d.Valid) :
    parseIsoZ (isoformatChars d ++ ['Z']) = some d := by
  obtain ⟨y, mo, da, hh, mi, ss, uu⟩ := d
  obtain ⟨hy1, hy2, hm1, hm2, hd1, hd2, hhh, hmi, hss, huu⟩ := h
  dsimp only at hy1 hy2 hm1 hm2 hd1 hd2 hhh hmi hss huu
  unfold isoformatChars
  dsimp only
  by_cases hu0 : uu = 0
  · subst hu0
    rw [if_pos rfl]
    unfold parseIsoZ
    simp only [List.append_assoc, List.cons_append, List.append_nil,
      parse4_pad4 y (by omega), parse2_pad2 mo (by omega),
      parse2_pad2 da (by omega), parse2_pad2 hh (by omega),
      parse2_pad2 mi (by omega), parse2_pad2 ss (by omega),
      expectChar_cons]
  · rw [if_neg hu0]
    unfold parseIsoZ
    simp only [List.append_assoc, List.cons_append,
      parse4_pad4 y (by omega), parse2_pad2 mo (by omega),
      parse2_pad2 da (by omega), parse2_pad2 hh (by omega),
      parse2_pad2 mi (by omega), parse2_pad2 ss (by omega),
      parse6_pad6 uu (by omega), expectChar_cons]

/-- The published timestamp string always ends in the UTC designator. -/
theorem append_Z_getLast (l : List Char) : (l ++ ['Z']).getLast? = some 'Z' :=
  List.getLast?_concat l

/-- C7: a cycle whose listing stage (including all per-application detail
fetches) or cluster-metrics stage raises leaves the store untouched; a
changed store implies a fully successful cycle; and a successful cycle
performs the single `set`, after every other stage, with the
serialization of this cycle's listing, metrics and fresh timestamp (on
this value domain the timestamping and `json.dumps` stages cannot
themselves raise, and `dumps` is evaluated before `set` is invoked). -/
theorem runUpdate_atomic (listing : Except WorkerError (List (JVal × StdInfo)))
    (metrics : Except WorkerError JVal) (now : PyDateTime)
    (st : PollerState) (store : Option JVal) :
    (¬ (runUpdate listing metrics now st store).2.2 = .ok () →
        (runUpdate listing metrics now st store).2.1 = store)
      ∧ ((runUpdate listing metrics now st store).2.1 ≠ store →
          (runUpdate listing metrics now st store).2.2 = .ok ())
      ∧ ((runUpdate listing metrics now st store).2.2 = .ok () →
          ∃ cur m, listing = .ok cur ∧ metrics = .ok m
            ∧ (runUpdate listing metrics now st store).2.1
                = some (PollerState.toJson
                    ⟨cur, m, some (isoformatChars now ++ ['Z'])⟩)) := by
  cases listing with
  | error e =>
    exact ⟨fun _ => rfl, fun hs => absurd rfl hs,
      fun hok => absurd hok (by simp [runUpdate])⟩
  | ok cur =>
    cases metrics with
    | error e =>
      exact ⟨fun _ => rfl, fun hs => absurd rfl hs,
        fun hok => absurd hok (by simp [runUpdate])⟩
    | ok m =>
      exact ⟨fun hnot => absurd rfl hnot, fun _ => rfl,
        fun _ => ⟨cur, m, rfl, rfl, rfl⟩⟩

/-- Witness: a cycle whose listing raises leaves the concrete prior
snapshot untouched in the store. -/
theorem runUpdate_atomic_witness :
    ¬ (runUpdate (.error .netError) (.ok (.obj [])) ⟨2024, 1, 2, 3, 4, 5, 0⟩
        PollerState.init (some (.str "previous"))).2.2 = .ok ()
      ∧ (runUpdate (.error .netError) (.ok (.obj [])) ⟨2024, 1, 2, 3, 4, 5, 0⟩
          PollerState.init (some (.str "previous"))).2.1
          = some (.str "previous") := by
  have hfail : ¬ (runUpdate (.error .netError) (.ok (.obj []))
      ⟨2024, 1, 2, 3, 4, 5, 0⟩ PollerState.init
      (some (.str "previous"))).2.2 = .ok () := by
    simp [runUpdate]
  exact ⟨hfail,
    (runUpdate_atomic (.error .netError) (.ok (.obj []))
      ⟨2024, 1, 2, 3, 4, 5, 0⟩ PollerState.init (some (.str "previous"))).1 hfail⟩

/-- C9: every snapshot a successful cycle publishes is a JSON object with
exactly the top-level keys `current`, `cluster-metrics` and
`refresh-datetime`; in particular the reader-side model's lookups of
`application-metrics` and `current-rm` find nothing, so `applications()`
and `application_info(id)` return empty dicts and `current_rm()` returns
the empty string on every published snapshot. -/
theorem snapshot_keys_reader_empty
    (listing : Except WorkerError (List (JVal × StdInfo)))
    (metrics : Except WorkerError JVal) (now : PyDateTime)
    (st st2 : PollerState) (store store2 : Option JVal)
    (h : runUpdate listing metrics now st store = (st2, store2, .ok ())) :
    ∃ fields, store2 = some (.obj fields)
      ∧ fields.map Prod.fst = ["current", "cluster-metrics", "refresh-datetime"]
      ∧ modelApplications fields = .obj []
      ∧ modelCurrentRm fields = .str ""
      ∧ ∀ appId, modelApplicationInfo fields appId = .obj [] := by
  cases listing with
  | error e => simp [runUpdate] at h
  | ok cur =>
    cases metrics with
    | error e => simp [runUpdate] at h
    | ok m =>
      have hstore : store2 = some (PollerState.toJson
          ⟨cur, m, some (isoformatChars now ++ ['Z'])⟩) := by
        have h21 := congrArg (fun p =>
          (p : PollerState × Option JVal × Except WorkerError Unit).2.1) h
        exact h21.symm
      refine ⟨[("current", listingToJson cur), ("cluster-metrics", m),
        ("refresh-datetime", .str ⟨isoformatChars now ++ ['Z']⟩)],
        ?_, rfl, rfl, rfl, fun appId => rfl⟩
      rw [hstore]
      rfl

/-- Witness for C9 at a concrete successful cycle. -/
theorem snapshot_keys_reader_empty_witness :
    ∃ fields,
      (runUpdate (.ok []) (.ok (.obj [])) wNow PollerState.init none).2.1
          = some (.obj fields)
        ∧ fields.map Prod.fst = ["current", "cluster-metrics", "refresh-datetime"]
        ∧ modelApplications fields = .obj []
        ∧ modelCurrentRm fields = .str ""
        ∧ ∀ appId, modelApplicationInfo fields appId = .obj [] :=
  snapshot_keys_reader_empty (.ok []) (.ok (.obj [])) wNow
    PollerState.init _ none _ rfl

/-- C8: both snapshots of two consecutive successful cycles carry a
`refresh-datetime` string that ends in `Z` and parses back (as ISO-8601
UTC) to exactly the clock value that was stamped; when the clock does not
run backwards between the two cycles, the denoted timestamps are
non-decreasing. -/
theorem refresh_datetime_valid_monotone
    (l1 : Except WorkerError (List (JVal × StdInfo))) (m1 : Except WorkerError JVal)
    (t1 : PyDateTime) (st1 : PollerState) (store1 : Option JVal)
    (st2 : PollerState) (store2 : Option JVal)
    (l2 : Except WorkerError (List (JVal × StdInfo))) (m2 : Except WorkerError JVal)
    (t2 : PyDateTime) (st3 : PollerState) (store3 : Option JVal)
    (h1 : runUpdate l1 m1 t1 st1 store1 = (st2, store2, .ok ()))
    (h2 : runUpdate l2 m2 t2 st2 store2 = (st3, store3, .ok ()))
    (hv1 : t1.Valid) (hv2 : t2.Valid) (hclock : t1.key ≤ t2.key) :
    ∃ snap1 snap2 s1 s2,
      store2 = some (.obj snap1) ∧ store3 = some (.obj snap2)
        ∧ alookup snap1 "refresh-datetime" = some (.str ⟨s1⟩)
        ∧ alookup snap2 "refresh-datetime" = some (.str ⟨s2⟩)
        ∧ s1.getLast? = some 'Z' ∧ s2.getLast? = some 'Z'
        ∧ parseIsoZ s1 = some t1 ∧ parseIsoZ s2 = some t2
        ∧ ∃ d1 d2, parseIsoZ s1 = some d1 ∧ parseIsoZ s2 = some d2
            ∧ d1.key ≤ d2.key := by
  cases l1 with
  | error e => simp [runUpdate] at h1
  | ok cur1 =>
  cases m1 with
  | error e => simp [runUpdate] at h1
  | ok mm1 =>
  cases l2 with
  | error e => simp [runUpdate] at h2
  | ok cur2 =>
  cases m2 with
  | error e => simp [runUpdate] at h2
  | ok mm2 =>
  have hs2 : store2 = some (PollerState.toJson
      ⟨cur1, mm1, some (isoformatChars t1 ++ ['Z'])⟩) := by
    have h21 := congrArg (fun p =>
      (p : PollerState × Option JVal × Except WorkerError Unit).2.1) h1
    exact h21.symm
  have hs3 : store3 = some (PollerState.toJson
      ⟨cur2, mm2, some (isoformatChars t2 ++ ['Z'])⟩) := by
    have h21 := congrArg (fun p =>
      (p : PollerState × Option JVal × Except WorkerError Unit).2.1) h2
    exact h21.symm
  refine ⟨[("current", listingToJson cur1), ("cluster-metrics", mm1),
      ("refresh-datetime", .str ⟨isoformatChars t1 ++ ['Z']⟩)],
    [("current", listingToJson cur2), ("cluster-metrics", mm2),
      ("refresh-datetime", .str ⟨isoformatChars t2 ++ ['Z']⟩)],
    isoformatChars t1 ++ ['Z'], isoformatChars t2 ++ ['Z'],
    ?_, ?_, rfl, rfl, append_Z_getLast _, append_Z_getLast _,
    parseIsoZ_isoformat t1 hv1, parseIsoZ_isoformat t2 hv2,
    t1, t2, parseIsoZ_isoformat t1 hv1, parseIsoZ_isoformat t2 hv2, hclock⟩
  · rw [hs2]
    rfl
  · rw [hs3]
    rfl

/-- Witness for C8 across two concrete consecutive cycles. -/
theorem refresh_datetime_valid_monotone_witness :
    wT1.Valid ∧ wT2.Valid ∧ wT1.key ≤ wT2.key
      ∧ ∃ snap1 snap2 s1 s2,
          (runUpdate (.ok []) (.ok (.obj [])) wT1 PollerState.init none).2.1
              = some (.obj snap1)
            ∧ (runUpdate (.ok []) (.ok (.obj [])) wT2
                  (runUpdate (.ok []) (.ok (.obj [])) wT1 PollerState.init none).1
                  (runUpdate (.ok []) (.ok (.obj [])) wT1
                    PollerState.init none).2.1).2.1
                = some (.obj snap2)
            ∧ alookup snap1 "refresh-datetime" = some (.str ⟨s1⟩)
            ∧ alookup snap2 "refresh-datetime" = some (.str ⟨s2⟩)
            ∧ s1.getLast? = some 'Z' ∧ s2.getLast? = some 'Z'
            ∧ parseIsoZ s1 = some wT1 ∧ parseIsoZ s2 = some wT2
            ∧ ∃ d1 d2, parseIsoZ s1 = some d1 ∧ parseIsoZ s2 = some d2
                ∧ d1.key ≤ d2.key := by
  refine ⟨by decide, by decide, by decide, ?_⟩
  exact refresh_datetime_valid_monotone (.ok []) (.ok (.obj [])) wT1
    PollerState.init none _ _ (.ok []) (.ok (.obj [])) wT2 _ _
    rfl rfl (by decide) (by decide) (by decide)
